import Mathlib

/-!
Shallow embedding of the website-audit tool in app.py (class WebsiteAudit).

The program fetches a single page, then runs four check groups (security,
performance, seo, accessibility) that append human-readable finding strings
to a dictionary self.issues keyed by the four category names.

Network interaction is modelled by an environment of oracles (outcome of the
main GET, of the TLS probe, and of the per-image HEAD requests).  Everything
else is translated line by line from the Python source; Python-specific
semantics (truthiness of requests.Response, str.split, dict.get defaults,
int() parsing, value formatting) are embedded by small helper functions whose
doc comments point at the Python behaviour they capture.
-/

namespace WebsiteAudit

/-- The structured view of a parsed body that the four checks consult
(BeautifulSoup accessors used by the source).
In field title, the outer Option is presence of a title tag
(soup.title is None when absent; a bs4 Tag is always truthy, even when
empty), and the inner Option is the tag's .string, which is None unless the
tag has exactly one string child, e.g. for an empty title element. -/
structure ImgTag where
  src : Option String
  alt : Option String
deriving Repr, DecidableEq

structure ParsedDoc where
  title : Option (Option String)
  hasMetaDescription : Bool
  h1Count : Nat
  imgs : List ImgTag
  /-- soup.find of the html tag: outer Option is tag presence, inner Option
  is its lang attribute (html_tag.get of lang). -/
  htmlLang : Option (Option String)
deriving Repr, DecidableEq

/-- The requests.Response fields the program reads. -/
structure Resp where
  status : Nat
  headers : List String
deriving Repr, DecidableEq

/-- Outcome of a successful requests.get: status code, response header names,
elapsed wall-clock seconds, and the BeautifulSoup view of the body
(html.parser never raises, so parsing always yields a document). -/
structure FetchOk where
  status : Nat
  headers : List String
  elapsed : ℚ
  doc : ParsedDoc

/-- Oracles for the three kinds of outbound network interaction.
An error value is the message of the exception the call raised;
headReq gives, per URL, the HEAD outcome: error, or ok with the optional
Content-Length header value. -/
structure Env where
  fetch : Except String FetchOk
  probe : Except String String
  headReq : String → Except String (Option String)

/-- Python str.startswith. -/
def pyStartsWith (s p : String) : Bool :=
  List.isPrefixOf p.data s.data

/-- Python str.lower, on the ASCII header names it is applied to. -/
def pyLower (s : String) : String :=
  String.mk (s.data.map Char.toLower)

/-- Python str.strip with no argument: drop leading and trailing
whitespace. -/
def pyStrip (s : String) : String :=
  String.mk (((s.data.dropWhile Char.isWhitespace).reverse.dropWhile
    Char.isWhitespace).reverse)

/-- Python str.split on a two-character separator (non-overlapping,
left to right, keeping empty segments). -/
def splitOn2Aux (c1 c2 : Char) (acc : List Char) : List Char → List (List Char)
  | [] => [acc.reverse]
  | [a] => [(a :: acc).reverse]
  | a :: b :: rest =>
      if a = c1 ∧ b = c2 then acc.reverse :: splitOn2Aux c1 c2 [] rest
      else splitOn2Aux c1 c2 (a :: acc) (b :: rest)

/-- self.url.split on the double slash. -/
def pySplitOnSlashSlash (s : String) : List String :=
  (splitOn2Aux '/' '/' [] s.data).map String.mk

/-- Python str.split on a one-character separator. -/
def splitOn1Aux (c : Char) (acc : List Char) : List Char → List (List Char)
  | [] => [acc.reverse]
  | a :: rest =>
      if a = c then acc.reverse :: splitOn1Aux c [] rest
      else splitOn1Aux c (a :: acc) rest

def pySplitOnSlash (s : String) : List String :=
  (splitOn1Aux '/' [] s.data).map String.mk

def readDigits (acc : Nat) : List Char → Option Nat
  | [] => some acc
  | c :: rest =>
      if c.isDigit then readDigits (acc * 10 + (c.toNat - 48)) rest else none

/-- Python int applied to a string: strip whitespace, optional sign, decimal
digits (digit-group underscores are not modelled); anything else raises
ValueError, here none. -/
def pyInt (s : String) : Option Int :=
  match (pyStrip s).data with
  | [] => none
  | '+' :: rest =>
      match rest with
      | [] => none
      | _ => (readDigits 0 rest).map Int.ofNat
  | '-' :: rest =>
      match rest with
      | [] => none
      | _ => (readDigits 0 rest).map (fun n => -(n : Int))
  | l => (readDigits 0 l).map Int.ofNat

/-- Python truthiness of a string: the empty string is falsy. -/
def pyTruthyStr (s : String) : Bool := !s.data.isEmpty

/-- Python truthiness of an optional string: None and the empty string are
falsy, every other string is truthy. -/
def pyFalsyStrOpt : Option String → Bool
  | none => true
  | some s => s.data.isEmpty

/-- requests.Response.__bool__ returns self.ok, that is status_code < 400;
so in the source, not self.response is true either when no response object
exists or when the status code is at least 400. -/
def pyTruthyResp : Option Resp → Bool
  | none => false
  | some r => r.status < 400

/-- Case-insensitive membership test of requests' CaseInsensitiveDict,
restricted to the header names (the program only tests membership). -/
def headerPresent (hs : List String) (name : String) : Bool :=
  hs.any (fun h => pyLower h == pyLower name)

/-- The issues dictionary: category name to ordered findings list. -/
abbrev Issues := List (String × List String)

def initIssues : Issues :=
  [("security", []), ("performance", []), ("seo", []), ("accessibility", [])]

/-- self.issues of a category, appended with one message (dict lookup plus
list append on the stored list). -/
def appendIssue : Issues → String → String → Issues
  | [], _, _ => []
  | p :: rest, cat, m =>
      (if p.1 == cat then (p.1, p.2 ++ [m]) else p) :: appendIssue rest cat m

def appendMany (is : Issues) (cat : String) (msgs : List String) : Issues :=
  msgs.foldl (fun acc m => appendIssue acc cat m) is

/-- Read a category's findings list. -/
def getIssues : Issues → String → List String
  | [], _ => []
  | p :: rest, cat => if p.1 == cat then p.2 else getIssues rest cat

-- The finding strings of the source, verbatim.

def noRespMsg : String := "No response from server to analyze security."
def enableHttpsMsg : String :=
  "Website does not use HTTPS. Enable HTTPS for security."
def cspMsg : String :=
  "Missing Content-Security-Policy header. Protects against XSS."
def xctoMsg : String :=
  "Missing X-Content-Type-Options header to prevent MIME-sniffing."
def stsMsg : String :=
  "Missing Strict-Transport-Security header to enforce HTTPS."
def loadFailMsg : String := "Page load time could not be measured."
def seoSkipMsg : String := "HTML content could not be parsed. SEO check skipped."
def titleMsg : String := "Missing or empty <title> tag."
def metaMsg : String := "Missing meta description tag."
def noH1Msg : String := "No <h1> tag found."
def multiH1Msg : String := "Multiple <h1> tags found."
def accSkipMsg : String :=
  "HTML content could not be parsed. Accessibility check skipped."
def langMsg : String := "Missing \x27lang\x27 attribute in <html> tag."
def attrErrStripMsg : String :=
  "AttributeError: \x27NoneType\x27 object has no attribute \x27strip\x27"

/-- A Python value that is either a str or a list of str: the type of the
server_hostname argument the source builds. -/
inductive PyVal where
  | str : String → PyVal
  | list : List String → PyVal
deriving Repr, DecidableEq

/-- CPython ssl: wrap_socket encodes server_hostname via
SSLContext._encode_hostname, which for a str returns it (idna round trip)
and for any other object calls hostname.decode, so a list raises
AttributeError before any network I/O happens. -/
def pyEncodeHostname : PyVal → Except String String
  | .str s => .ok s
  | .list _ => .error "\x27list\x27 object has no attribute \x27decode\x27"

/-- The finding produced by the try block of analyze_security, lines 37-47.
hostname is self.url.split twice: Python str.split returns a list, and the
index selecting the host part is missing in the source, so a List String is
handed to wrap_socket; only if that encoded would the probe oracle be
consulted. -/
def certBranchIssue (url : String) (probe : Except String String) : String :=
  match (pySplitOnSlashSlash url).get? 1 with
  | none => "SSL certificate check failed: list index out of range"
  | some rest =>
      match pyEncodeHostname (.list (pySplitOnSlash rest)) with
      | .error e => "SSL certificate check failed: " ++ e
      | .ok _ =>
          match probe with
          | .ok notAfter => "SSL certificate valid until " ++ notAfter
          | .error e => "SSL certificate check failed: " ++ e

/-- The scheme-dependent first finding of analyze_security (lines 34-47). -/
def schemeIssue (url : String) (probe : Except String String) : String :=
  if pyStartsWith url "https://" then certBranchIssue url probe
  else enableHttpsMsg

/-- Header checks of analyze_security, lines 49-55. -/
def headerIssues (hs : List String) : List String :=
  (if headerPresent hs "Content-Security-Policy" then [] else [cspMsg])
    ++ (if headerPresent hs "X-Content-Type-Options" then [] else [xctoMsg])
    ++ (if headerPresent hs "Strict-Transport-Security" then [] else [stsMsg])

/-- response is truthy wherever this is used, so the default is never
taken. -/
def respHeaders : Option Resp → List String
  | none => []
  | some r => r.headers

/-- The findings analyze_security appends, in order (lines 29-55). -/
def securityIssues (url : String) (response : Option Resp)
    (probe : Except String String) : List String :=
  if pyTruthyResp response then
    [schemeIssue url probe] ++ headerIssues (respHeaders response)
  else
    [noRespMsg]

/-- Round num/den to the nearest integer, ties to even: how Python format
rounds the exact value of a binary float. -/
def roundHalfEven (num den : Nat) : Nat :=
  let q := num / den
  let r := num % den
  if 2 * r < den then q else if den < 2 * r then q + 1
  else if q % 2 = 0 then q else q + 1

/-- Python format of size/1024 with one decimal.  Division of an int below
2 to the 53 by 1024 is exact in IEEE double, so the format rounds the exact
rational size*10/1024 = size*5/512 half to even.  Only evaluated on positive
sizes (the guard size > 500000 precedes every use). -/
def formatKB1 (size : Int) : String :=
  let t := roundHalfEven (size.toNat * 5) 512
  toString (t / 10) ++ "." ++ toString (t % 10)

def imgMsg (src : String) (size : Int) : String :=
  "Image " ++ src ++ " is large (" ++ formatKB1 size ++ " KB). Optimize image size."

/-- int applied to head.headers.get of Content-Length with default 0: when
the header is absent the int default 0 is used; when present, Python int
parses the decimal string or raises ValueError (swallowed by the bare
except of the loop). -/
def pyIntOfCL : Option String → Except String Int
  | none => .ok 0
  | some s =>
      match pyInt s with
      | some n => .ok n
      | none => .error "ValueError"

/-- The per-image loop of analyze_performance, lines 64-74.  Each image
contributes at most one finding; every exception inside the loop body hits
continue. -/
def imageSizeFindings (imgs : List ImgTag)
    (headReq : String → Except String (Option String)) : List String :=
  imgs.filterMap (fun img =>
    match img.src with
    | none => none
    | some src =>
        if pyTruthyStr src && pyStartsWith src "http" then
          match headReq src with
          | .error _ => none
          | .ok cl =>
              match pyIntOfCL cl with
              | .error _ => none
              | .ok size => if 500000 < size then some (imgMsg src size) else none
        else none)

/-- Round a rational to the nearest integer, ties to even. -/
def roundHalfEvenQ (q : ℚ) : ℤ :=
  let f : ℤ := Rat.floor q
  let frac : ℚ := q - f
  if frac < 1 / 2 then f else if 1 / 2 < frac then f + 1
  else if f % 2 = 0 then f else f + 1

/-- Python format of the nonnegative load time with two decimals (up to the
float representation of the measured wall-clock time). -/
def pyFormat2 (t : ℚ) : String :=
  let c : ℤ := roundHalfEvenQ (t * 100)
  let r : Nat := (c % 100).toNat
  toString (c / 100) ++ "." ++ (if r < 10 then "0" else "") ++ toString r

/-- The findings analyze_performance appends, in order (lines 57-74). -/
def performanceIssues (load_time : Option ℚ) (soup : Option ParsedDoc)
    (headReq : String → Except String (Option String)) : List String :=
  (match load_time with
   | some t =>
       if 3 < t then
         ["Page load time is " ++ pyFormat2 t ++ "s. Aim for under 3 seconds."]
       else []
   | none => [loadFailMsg])
    ++ imageSizeFindings (match soup with | some d => d.imgs | none => []) headReq

/-- The meta-description and h1 checks of analyze_seo, lines 83-89. -/
def metaAndH1Issues (d : ParsedDoc) : List String :=
  (if d.hasMetaDescription then [] else [metaMsg])
    ++ (if d.h1Count = 0 then [noH1Msg]
        else if 1 < d.h1Count then [multiH1Msg] else [])

/-- analyze_seo, lines 76-89, as the list it appends or the exception it
raises.  When a title tag is present but its .string is None (for example an
empty title element), line 81 calls .strip on None and the AttributeError
escapes: no try surrounds it, so the whole method raises before appending
anything.  When the title tag is absent, the or short-circuits and no raise
occurs. -/
def seoIssues : Option ParsedDoc → Except String (List String)
  | none => .ok [seoSkipMsg]
  | some d =>
      match d.title with
      | none => .ok ([titleMsg] ++ metaAndH1Issues d)
      | some none => .error attrErrStripMsg
      | some (some s) =>
          .ok ((if (pyStrip s).data.isEmpty then [titleMsg] else [])
            ++ metaAndH1Issues d)

/-- analyze_accessibility, lines 91-103: one finding per img whose alt is
absent or empty (Python falsy), naming its src with dict-get default
unknown source, then the lang finding when the html tag is absent (find
returned None) or its lang attribute is absent or empty. -/
def accessibilityIssues : Option ParsedDoc → List String
  | none => [accSkipMsg]
  | some d =>
      d.imgs.filterMap (fun img =>
        if pyFalsyStrOpt img.alt then
          some ("Image missing alt attribute: " ++ img.src.getD "unknown source")
        else none)
        ++ (match d.htmlLang with
            | none => [langMsg]
            | some lang => if pyFalsyStrOpt lang then [langMsg] else [])

/-- The mutable state of a WebsiteAudit object. -/
structure AuditState where
  url : String
  issues : Issues
  soup : Option ParsedDoc
  response : Option Resp
  load_time : Option ℚ

/-- Line 12: the constructor prefixes the scheme only when the string does
not already start with http. -/
def normalizeUrl (url : String) : String :=
  if pyStartsWith url "http" then url else "http://" ++ url

def mkAudit (url : String) : AuditState :=
  { url := normalizeUrl url, issues := initIssues, soup := none
    response := none, load_time := none }

/-- fetch_website, lines 17-27: on a raised GET nothing but the failure
finding happens (load_time stays unset); on a response, response and
load_time are always set, and the body is parsed only for status 200,
otherwise the status finding is appended. -/
def fetch_website (env : Env) (st : AuditState) : AuditState :=
  match env.fetch with
  | .error e =>
      { st with issues :=
          appendIssue st.issues "performance" ("Failed to fetch website: " ++ e) }
  | .ok f =>
      let st1 := { st with response := some ⟨f.status, f.headers⟩,
                           load_time := some f.elapsed }
      if f.status = 200 then
        { st1 with soup := some f.doc }
      else
        { st1 with issues :=
            (appendIssue st1.issues "performance"
              ("Page returned status code " ++ toString f.status)) }

def analyze_security (env : Env) (st : AuditState) : AuditState :=
  { st with issues :=
      appendMany st.issues "security" (securityIssues st.url st.response env.probe) }

def analyze_performance (env : Env) (st : AuditState) : AuditState :=
  { st with issues :=
      (appendMany st.issues "performance"
        (performanceIssues st.load_time st.soup env.headReq)) }

def analyze_seo (st : AuditState) : Except String AuditState :=
  match seoIssues st.soup with
  | .error e => .error e
  | .ok msgs => .ok { st with issues := appendMany st.issues "seo" msgs }

def analyze_accessibility (st : AuditState) : AuditState :=
  { st with issues :=
      appendMany st.issues "accessibility" (accessibilityIssues st.soup) }

/-- run_audit, lines 105-111: fetch, then the four checks in order; an
exception escaping analyze_seo aborts the run with no report. -/
def run_audit (env : Env) (st : AuditState) : Except String AuditState :=
  match analyze_seo (analyze_performance env (analyze_security env
      (fetch_website env st))) with
  | .error e => .error e
  | .ok st4 => .ok (analyze_accessibility st4)

/-- WebsiteAudit(url).run_audit() as invoked by the route handler: the
returned value is self.issues. -/
def runAuditReport (env : Env) (url : String) : Except String Issues :=
  (run_audit env (mkAudit url)).map AuditState.issues

-- Concrete documents and environments used by the closed theorems below.

/-- A benign parsed document: nonempty title, meta description present,
exactly one h1, no images, html element with a lang attribute. -/
def docPlain : ParsedDoc := ⟨some (some "T"), true, 1, [], some (some "en")⟩

/-- A parsed document whose title element is present but empty, so its
.string is None (bs4 gives a Tag with no string child). -/
def docEmptyTitle : ParsedDoc := ⟨some none, true, 1, [], some (some "en")⟩

/-- Status 200 with all three security headers present and a certificate
oracle that would report an expiry date if it were ever reached. -/
def envAllGood : Env :=
  ⟨.ok ⟨200, ["Content-Security-Policy", "X-Content-Type-Options",
      "Strict-Transport-Security"], 1, docPlain⟩,
     .ok "Dec 31 23:59:59 2030 GMT", fun _ => .error "h"⟩

/-- Status 404 with no security headers at all. -/
def env404 : Env := ⟨.ok ⟨404, [], 1, docPlain⟩, .error "p", fun _ => .error "h"⟩

/-- Status 200 whose body has an empty title element. -/
def envEmptyTitle : Env :=
  ⟨.ok ⟨200, [], 1, docEmptyTitle⟩, .error "p", fun _ => .error "h"⟩

/-- The string the cert branch always appends: the missing list index makes
wrap_socket raise before the network is touched. -/
def certFailDecodeMsg : String :=
  "SSL certificate check failed: \x27list\x27 object has no attribute \x27decode\x27"

def certFailIndexMsg : String :=
  "SSL certificate check failed: list index out of range"

/-- Modelled from the spec: the spec speaks of a URL whose scheme is absent;
a scheme, when present, is delimited by a colon, so a string without any
colon has no scheme.  Used only to state the normalization claim. -/
def specHasScheme (s : String) : Bool := s.data.any (fun c => c = ':')

end WebsiteAudit

namespace WebsiteAudit

-- Supporting lemmas about the issues dictionary.

theorem appendIssue_keys (is : Issues) (c m : String) :
    (appendIssue is c m).map Prod.fst = is.map Prod.fst := by
  induction is with
  | nil => rfl
  | cons p rest ih =>
      simp only [appendIssue, List.map_cons, ih]
      split <;> simp

theorem appendMany_keys (msgs : List String) : ∀ (is : Issues) (c : String),
    (appendMany is c msgs).map Prod.fst = is.map Prod.fst := by
  induction msgs with
  | nil => intro is c; rfl
  | cons m rest ih =>
      intro is c
      show (appendMany (appendIssue is c m) c rest).map Prod.fst = _
      rw [ih, appendIssue_keys]

theorem getIssues_appendIssue (is : Issues) (c m cat : String) :
    ∃ t, getIssues (appendIssue is c m) cat = getIssues is cat ++ t := by
  induction is with
  | nil => exact ⟨[], rfl⟩
  | cons p rest ih =>
      by_cases h : p.1 == cat
      · by_cases hc : p.1 == c
        · exact ⟨[m], by simp [appendIssue, getIssues, hc, h]⟩
        · exact ⟨[], by simp [appendIssue, getIssues, hc, h]⟩
      · obtain ⟨t, ht⟩ := ih
        by_cases hc : p.1 == c
        · exact ⟨t, by simp [appendIssue, getIssues, hc, h, ht]⟩
        · exact ⟨t, by simp [appendIssue, getIssues, hc, h, ht]⟩

theorem getIssues_appendMany (msgs : List String) : ∀ (is : Issues) (c cat : String),
    ∃ t, getIssues (appendMany is c msgs) cat = getIssues is cat ++ t := by
  induction msgs with
  | nil => exact fun is c cat => ⟨[], by simp [appendMany]⟩
  | cons m rest ih =>
      intro is c cat
      obtain ⟨t2, h2⟩ := ih (appendIssue is c m) c cat
      obtain ⟨t1, h1⟩ := getIssues_appendIssue is c m cat
      exact ⟨t1 ++ t2, by
        show getIssues (appendMany (appendIssue is c m) c rest) cat = _
        rw [h2, h1, List.append_assoc]⟩

theorem extendsIssues_trans {a b c : List String}
    (h1 : ∃ t, b = a ++ t) (h2 : ∃ t, c = b ++ t) : ∃ t, c = a ++ t := by
  obtain ⟨t1, h1⟩ := h1
  obtain ⟨t2, h2⟩ := h2
  exact ⟨t1 ++ t2, by rw [h2, h1, List.append_assoc]⟩

-- Supporting lemmas about the individual steps of run_audit.

theorem fetch_website_keys (env : Env) (st : AuditState) :
    (fetch_website env st).issues.map Prod.fst = st.issues.map Prod.fst := by
  unfold fetch_website
  split
  · exact appendIssue_keys ..
  · split
    · rfl
    · exact appendIssue_keys ..

theorem fetch_website_extends (env : Env) (st : AuditState) (cat : String) :
    ∃ t, getIssues (fetch_website env st).issues cat = getIssues st.issues cat ++ t := by
  unfold fetch_website
  split
  · exact getIssues_appendIssue ..
  · split
    · exact ⟨[], by simp⟩
    · exact getIssues_appendIssue ..

theorem analyze_seo_ok (st st' : AuditState) (h : analyze_seo st = .ok st') :
    ∃ msgs, st'.issues = appendMany st.issues "seo" msgs ∧ st'.url = st.url ∧
      st'.soup = st.soup := by
  unfold analyze_seo at h
  split at h
  · exact absurd h (by simp)
  · exact ⟨_, by cases h; exact ⟨rfl, rfl, rfl⟩⟩

theorem fetch_website_url (env : Env) (st : AuditState) :
    (fetch_website env st).url = st.url := by
  unfold fetch_website
  split
  · rfl
  · split <;> rfl

theorem run_audit_keys (env : Env) (st st' : AuditState)
    (h : run_audit env st = .ok st') :
    st'.issues.map Prod.fst = st.issues.map Prod.fst := by
  unfold run_audit at h
  cases heq : analyze_seo (analyze_performance env (analyze_security env
      (fetch_website env st))) with
  | error e => rw [heq] at h; exact absurd h (by simp)
  | ok st4 =>
      rw [heq] at h
      cases h
      obtain ⟨msgs, hm, -, -⟩ := analyze_seo_ok _ _ heq
      show (analyze_accessibility st4).issues.map Prod.fst = _
      simp only [analyze_accessibility]
      rw [appendMany_keys, hm, appendMany_keys]
      simp only [analyze_performance, analyze_security]
      rw [appendMany_keys, appendMany_keys, fetch_website_keys]

theorem run_audit_extends (env : Env) (st st' : AuditState) (cat : String)
    (h : run_audit env st = .ok st') :
    ∃ t, getIssues st'.issues cat = getIssues st.issues cat ++ t := by
  unfold run_audit at h
  cases heq : analyze_seo (analyze_performance env (analyze_security env
      (fetch_website env st))) with
  | error e => rw [heq] at h; exact absurd h (by simp)
  | ok st4 =>
      rw [heq] at h
      cases h
      obtain ⟨msgs, hm, -, -⟩ := analyze_seo_ok _ _ heq
      have e1 := fetch_website_extends env st cat
      have e2 : ∃ t, getIssues (analyze_security env (fetch_website env st)).issues cat
          = getIssues (fetch_website env st).issues cat ++ t :=
        getIssues_appendMany _ _ _ _
      have e3 : ∃ t, getIssues (analyze_performance env (analyze_security env
            (fetch_website env st))).issues cat
          = getIssues (analyze_security env (fetch_website env st)).issues cat ++ t :=
        getIssues_appendMany _ _ _ _
      have e4 : ∃ t, getIssues st4.issues cat
          = getIssues (analyze_performance env (analyze_security env
              (fetch_website env st))).issues cat ++ t := by
        rw [hm]; exact getIssues_appendMany _ _ _ _
      have e5 : ∃ t, getIssues (analyze_accessibility st4).issues cat
          = getIssues st4.issues cat ++ t :=
        getIssues_appendMany _ _ _ _
      exact extendsIssues_trans (extendsIssues_trans (extendsIssues_trans
        (extendsIssues_trans e1 e2) e3) e4) e5

theorem run_audit_url (env : Env) (st st' : AuditState)
    (h : run_audit env st = .ok st') : st'.url = st.url := by
  unfold run_audit at h
  cases heq : analyze_seo (analyze_performance env (analyze_security env
      (fetch_website env st))) with
  | error e => rw [heq] at h; exact absurd h (by simp)
  | ok st4 =>
      rw [heq] at h
      cases h
      obtain ⟨-, -, hurl, -⟩ := analyze_seo_ok _ _ heq
      show (analyze_accessibility st4).url = st.url
      simp only [analyze_accessibility]
      rw [hurl]
      simp only [analyze_performance, analyze_security]
      exact fetch_website_url env st

end WebsiteAudit

namespace WebsiteAudit

/-- C1: at a 200 fetch of an https target with all three security headers
present and a certificate oracle ready to report an expiry date, the
security findings list has exactly one entry, but it is the
SSL-check-failed message: the missing list index on line 38 hands a list to
wrap_socket, which raises before any network use, so the certificate-expiry
finding is unreachable, contradicting the claim. -/
theorem C1_cert_finding_unreachable :
    envAllGood.probe = .ok "Dec 31 23:59:59 2030 GMT"
    ∧ runAuditReport envAllGood "https://example.com" =
        .ok [("security", [certFailDecodeMsg]), ("performance", []),
             ("seo", []), ("accessibility", [])]
    ∧ pyStartsWith certFailDecodeMsg "SSL certificate valid until" = false :=
  ⟨rfl, rfl, rfl⟩

/-- C3: the audit does raise: a successful 200 fetch whose body has an
empty title element makes line 81 call .strip on None, and the
AttributeError escapes run_audit instead of a report being returned. -/
theorem C3_audit_raises_on_empty_title :
    docEmptyTitle.title = some none
    ∧ runAuditReport envEmptyTitle "http://example.com" = .error attrErrStripMsg :=
  ⟨rfl, rfl⟩

/-- C4: when the main GET raises at transport level, the report exists,
security, seo and accessibility carry exactly their skipped placeholder,
and performance carries the fetch-failure wording (followed by the
unmeasured-load-time finding), not the no-response wording. -/
theorem C4_transport_failure_report (e url : String)
    (probe : Except String String)
    (headReq : String → Except String (Option String)) :
    ∃ rep, runAuditReport ⟨.error e, probe, headReq⟩ url = .ok rep
      ∧ getIssues rep "security" = [noRespMsg]
      ∧ getIssues rep "seo" = [seoSkipMsg]
      ∧ getIssues rep "accessibility" = [accSkipMsg]
      ∧ getIssues rep "performance" = ["Failed to fetch website: " ++ e, loadFailMsg] :=
  ⟨_, rfl, rfl, rfl, rfl, rfl⟩

/-- C2 counterexample: a fetch that completes with status 404 leaves a
response object (with its headers, all three security headers absent), yet
the security check emits the single no-response placeholder and no
header-missing finding: requests truthiness makes not self.response true
for any status of at least 400. -/
theorem C2_counterexample :
    env404.fetch = .ok ⟨404, [], 1, docPlain⟩
    ∧ runAuditReport env404 "http://example.com" =
        .ok [("security", [noRespMsg]),
             ("performance", ["Page returned status code 404"]),
             ("seo", [seoSkipMsg]), ("accessibility", [accSkipMsg])]
    ∧ cspMsg ∉ [noRespMsg] ∧ xctoMsg ∉ [noRespMsg] ∧ stsMsg ∉ [noRespMsg] :=
  ⟨rfl, rfl, by decide, by decide, by decide⟩

/-- C6: for every parsed document, the accessibility findings are one
finding per img without a non-empty alt, naming its src or unknown source,
followed by the lang finding exactly when the html element is absent or
has no (or an empty, Python-falsy) lang attribute; in particular a
document whose html element carries a non-empty lang attribute gets the
per-image findings and no lang finding, and the concrete scenario of the
claim produces exactly its two findings. -/
theorem C6_accessibility_findings :
    (∀ d : ParsedDoc,
      accessibilityIssues (some d) =
        (d.imgs.filterMap (fun img =>
          if pyFalsyStrOpt img.alt then
            some ("Image missing alt attribute: " ++ img.src.getD "unknown source")
          else none))
        ++ (if d.htmlLang = none ∨ d.htmlLang = some none ∨ d.htmlLang = some (some "")
            then [langMsg] else []))
    ∧ (∀ (d : ParsedDoc) (l : String), d.htmlLang = some (some l) → l ≠ "" →
        accessibilityIssues (some d) =
          d.imgs.filterMap (fun img =>
            if pyFalsyStrOpt img.alt then
              some ("Image missing alt attribute: " ++ img.src.getD "unknown source")
            else none))
    ∧ accessibilityIssues
        (some ⟨none, false, 0, [⟨some "http://x/a.png", none⟩], some none⟩) =
        ["Image missing alt attribute: http://x/a.png", langMsg] := by
  refine ⟨?_, ?_, rfl⟩
  · intro d
    cases hl : d.htmlLang with
    | none => simp [accessibilityIssues, hl]
    | some lang =>
        cases lang with
        | none => simp [accessibilityIssues, hl, pyFalsyStrOpt]
        | some l =>
            by_cases he : l.data.isEmpty = true
            · have hl0 : l = "" := by
                obtain ⟨cs⟩ := l
                cases cs with
                | nil => rfl
                | cons c cs => exact absurd he (by simp)
              subst hl0
              simp [accessibilityIssues, hl, pyFalsyStrOpt]
            · have hl0 : l ≠ "" := by
                intro h0
                subst h0
                exact he rfl
              simp [accessibilityIssues, hl, pyFalsyStrOpt, he, hl0]
  · intro d l hdl hne
    have he : l.data.isEmpty = false := by
      obtain ⟨cs⟩ := l
      cases cs with
      | nil => exact absurd rfl hne
      | cons c cs => rfl
    simp [accessibilityIssues, hdl, pyFalsyStrOpt, he]

/-- C6 witness: the theorem applied to a document whose html element has
the non-empty lang attribute en: per-image findings only, no lang
finding. -/
theorem C6_witness :
    accessibilityIssues (some ⟨none, true, 1, [], some (some "en")⟩) =
      (([] : List ImgTag).filterMap (fun img =>
        if pyFalsyStrOpt img.alt then
          some ("Image missing alt attribute: " ++ img.src.getD "unknown source")
        else none)) :=
  C6_accessibility_findings.2.1 ⟨none, true, 1, [], some (some "en")⟩ "en"
    rfl (by decide)

end WebsiteAudit

namespace WebsiteAudit

theorem pyTruthyStr_of_startsWith_http (src : String)
    (h : pyStartsWith src "http" = true) : pyTruthyStr src = true := by
  obtain ⟨l⟩ := src
  cases l with
  | nil => exact absurd h (by decide)
  | cons c cs => rfl

/-- C10: an image whose HEAD request succeeds without a Content-Length
header is sized via the dict-get default 0, so it never yields an
oversized-image finding. -/
theorem C10_missing_content_length (src : String) (alt : Option String)
    (headReq : String → Except String (Option String))
    (h1 : pyStartsWith src "http" = true) (h2 : headReq src = .ok none) :
    imageSizeFindings [⟨some src, alt⟩] headReq = [] := by
  have hne := pyTruthyStr_of_startsWith_http src h1
  simp [imageSizeFindings, hne, h1, h2, pyIntOfCL]

/-- C10 witness: the theorem at a concrete image and oracle. -/
theorem C10_witness :
    imageSizeFindings [⟨some "http://x/a.png", none⟩] (fun _ => .ok none) = [] :=
  C10_missing_content_length "http://x/a.png" none (fun _ => .ok none) rfl rfl

/-- C8: for an image with an absolute src whose HEAD request reports a
parsed Content-Length n, an oversized finding (naming the URL and the size
in kilobytes with one decimal) is emitted exactly when n exceeds 500000;
in particular 500000 yields none and 500001 yields one. -/
theorem C8_oversized_image (src s : String) (alt : Option String) (n : Int)
    (headReq : String → Except String (Option String))
    (h1 : pyStartsWith src "http" = true)
    (h2 : headReq src = .ok (some s))
    (h3 : pyInt s = some n) :
    imageSizeFindings [⟨some src, alt⟩] headReq =
      if 500000 < n then [imgMsg src n] else [] := by
  have hne := pyTruthyStr_of_startsWith_http src h1
  simp only [imageSizeFindings, List.filterMap_cons, List.filterMap_nil, hne, h1, h2,
    pyIntOfCL, h3, Bool.and_self, if_true]
  by_cases hn : 500000 < n <;> simp [hn]

/-- C8 witness: the boundary behaviour at 500000 and 500001 bytes, with the
exact one-decimal kilobyte wording. -/
theorem C8_witness :
    imageSizeFindings [⟨some "http://x/a.png", none⟩] (fun _ => .ok (some "500000")) = []
    ∧ imageSizeFindings [⟨some "http://x/a.png", none⟩] (fun _ => .ok (some "500001")) =
        ["Image http://x/a.png is large (488.3 KB). Optimize image size."] := by
  constructor
  · have h := C8_oversized_image "http://x/a.png" "500000" none 500000
      (fun _ => .ok (some "500000")) rfl rfl (by decide)
    rw [h, if_neg (by norm_num)]
  · have h := C8_oversized_image "http://x/a.png" "500001" none 500001
      (fun _ => .ok (some "500001")) rfl rfl (by decide)
    rw [h, if_pos (by norm_num)]
    decide

end WebsiteAudit

namespace WebsiteAudit

/-- C7: whenever the SEO check completes, the no-h1 finding is present
exactly when the document has zero h1 elements, the multiple-h1 finding
exactly when it has more than one, never both, and neither when exactly
one is present. -/
theorem C7_h1_findings (d : ParsedDoc) (out : List String)
    (h : seoIssues (some d) = .ok out) :
    (noH1Msg ∈ out ↔ d.h1Count = 0)
    ∧ (multiH1Msg ∈ out ↔ 1 < d.h1Count)
    ∧ ¬(noH1Msg ∈ out ∧ multiH1Msg ∈ out)
    ∧ (d.h1Count = 1 → noH1Msg ∉ out ∧ multiH1Msg ∉ out) := by
  have hout : ∃ pre, (pre = [titleMsg] ∨ pre = []) ∧ out = pre ++ metaAndH1Issues d := by
    cases ht : d.title with
    | none =>
        simp only [seoIssues, ht, Except.ok.injEq] at h
        exact ⟨[titleMsg], Or.inl rfl, h.symm⟩
    | some so =>
        cases so with
        | none => simp [seoIssues, ht] at h
        | some s =>
            simp only [seoIssues, ht, Except.ok.injEq] at h
            by_cases hs : (pyStrip s).data.isEmpty = true
            · refine ⟨[titleMsg], Or.inl rfl, ?_⟩
              rw [if_pos hs] at h
              exact h.symm
            · refine ⟨[], Or.inr rfl, ?_⟩
              rw [if_neg hs] at h
              exact h.symm
  obtain ⟨pre, hpre, rfl⟩ := hout
  have hnpre1 : noH1Msg ∉ pre := by rcases hpre with rfl | rfl <;> decide
  have hnpre2 : multiH1Msg ∉ pre := by rcases hpre with rfl | rfl <;> decide
  have hm1 : noH1Msg ∈ metaAndH1Issues d ↔ d.h1Count = 0 := by
    unfold metaAndH1Issues
    by_cases hm : d.hasMetaDescription <;>
      rcases hc : d.h1Count with _ | _ | k <;>
        simp [hm, hc, show noH1Msg ≠ metaMsg by decide,
          show noH1Msg ≠ multiH1Msg by decide]
  have hm2 : multiH1Msg ∈ metaAndH1Issues d ↔ 1 < d.h1Count := by
    unfold metaAndH1Issues
    by_cases hm : d.hasMetaDescription <;>
      rcases hc : d.h1Count with _ | _ | k <;>
        simp [hm, hc, show multiH1Msg ≠ metaMsg by decide,
          show multiH1Msg ≠ noH1Msg by decide]
  have hiff1 : noH1Msg ∈ pre ++ metaAndH1Issues d ↔ d.h1Count = 0 := by
    rw [List.mem_append]
    simp [hnpre1, hm1]
  have hiff2 : multiH1Msg ∈ pre ++ metaAndH1Issues d ↔ 1 < d.h1Count := by
    rw [List.mem_append]
    simp [hnpre2, hm2]
  refine ⟨hiff1, hiff2, ?_, ?_⟩
  · rintro ⟨ha, hb⟩
    have h0 := hiff1.mp ha
    have h1 := hiff2.mp hb
    omega
  · intro hone
    constructor
    · intro ha; have := hiff1.mp ha; omega
    · intro hb; have := hiff2.mp hb; omega

/-- C7 witness: the theorem at a document with exactly one h1, where the
SEO check completes with no findings. -/
theorem C7_witness :
    noH1Msg ∉ ([] : List String) ∧ multiH1Msg ∉ ([] : List String) :=
  (C7_h1_findings ⟨some (some "T"), true, 1, [], some (some "en")⟩ [] rfl).2.2.2 rfl

end WebsiteAudit

namespace WebsiteAudit

theorem schemeIssue_cases (url : String) (probe : Except String String) :
    schemeIssue url probe = enableHttpsMsg
    ∨ schemeIssue url probe = certFailIndexMsg
    ∨ schemeIssue url probe = certFailDecodeMsg := by
  unfold schemeIssue certBranchIssue
  by_cases h : pyStartsWith url "https://" = true
  · rw [if_pos h]
    cases hg : (pySplitOnSlashSlash url).get? 1 with
    | none => exact Or.inr (Or.inl rfl)
    | some rest => exact Or.inr (Or.inr rfl)
  · rw [if_neg h]
    exact Or.inl rfl

theorem noResp_notMem_headerIssues (hs : List String) :
    noRespMsg ∉ headerIssues hs := by
  unfold headerIssues
  by_cases h1 : headerPresent hs "Content-Security-Policy" = true <;>
    by_cases h2 : headerPresent hs "X-Content-Type-Options" = true <;>
      by_cases h3 : headerPresent hs "Strict-Transport-Security" = true <;>
        simp [h1, h2, h3, show noRespMsg ≠ cspMsg by decide,
          show noRespMsg ≠ xctoMsg by decide, show noRespMsg ≠ stsMsg by decide]

theorem csp_mem_headerIssues (hs : List String) :
    cspMsg ∈ headerIssues hs ↔ headerPresent hs "Content-Security-Policy" = false := by
  unfold headerIssues
  by_cases h1 : headerPresent hs "Content-Security-Policy" = true <;>
    by_cases h2 : headerPresent hs "X-Content-Type-Options" = true <;>
      by_cases h3 : headerPresent hs "Strict-Transport-Security" = true <;>
        simp [h1, h2, h3, show cspMsg ≠ xctoMsg by decide,
          show cspMsg ≠ stsMsg by decide]

theorem xcto_mem_headerIssues (hs : List String) :
    xctoMsg ∈ headerIssues hs ↔ headerPresent hs "X-Content-Type-Options" = false := by
  unfold headerIssues
  by_cases h1 : headerPresent hs "Content-Security-Policy" = true <;>
    by_cases h2 : headerPresent hs "X-Content-Type-Options" = true <;>
      by_cases h3 : headerPresent hs "Strict-Transport-Security" = true <;>
        simp [h1, h2, h3, show xctoMsg ≠ cspMsg by decide,
          show xctoMsg ≠ stsMsg by decide]

theorem sts_mem_headerIssues (hs : List String) :
    stsMsg ∈ headerIssues hs ↔ headerPresent hs "Strict-Transport-Security" = false := by
  unfold headerIssues
  by_cases h1 : headerPresent hs "Content-Security-Policy" = true <;>
    by_cases h2 : headerPresent hs "X-Content-Type-Options" = true <;>
      by_cases h3 : headerPresent hs "Strict-Transport-Security" = true <;>
        simp [h1, h2, h3, show stsMsg ≠ cspMsg by decide,
          show stsMsg ≠ xctoMsg by decide]

theorem schemeIssue_ne_of_ne (url : String) (probe : Except String String)
    (m : String) (h1 : m ≠ enableHttpsMsg) (h2 : m ≠ certFailIndexMsg)
    (h3 : m ≠ certFailDecodeMsg) : m ≠ schemeIssue url probe := by
  rcases schemeIssue_cases url probe with h | h | h <;> rw [h] <;> assumption

/-- C2, amended: the header inspection runs only while the response object
is truthy, that is for status codes below 400 (requests truthiness); for a
completed fetch with status 400 or above, the security check emits the
single no-response placeholder instead.  Within the truthy range each
absent header yields its finding and the placeholder is absent. -/
theorem C2_amended_header_checks (url : String) (status : Nat) (hs : List String)
    (probe : Except String String) (_hne : status ≠ 200) :
    (status < 400 →
      noRespMsg ∉ securityIssues url (some ⟨status, hs⟩) probe
      ∧ (cspMsg ∈ securityIssues url (some ⟨status, hs⟩) probe
          ↔ headerPresent hs "Content-Security-Policy" = false)
      ∧ (xctoMsg ∈ securityIssues url (some ⟨status, hs⟩) probe
          ↔ headerPresent hs "X-Content-Type-Options" = false)
      ∧ (stsMsg ∈ securityIssues url (some ⟨status, hs⟩) probe
          ↔ headerPresent hs "Strict-Transport-Security" = false))
    ∧ (400 ≤ status → securityIssues url (some ⟨status, hs⟩) probe = [noRespMsg]) := by
  constructor
  · intro hlt
    have htr : pyTruthyResp (some ⟨status, hs⟩) = true := by
      simp [pyTruthyResp, hlt]
    simp only [securityIssues, htr, if_true, respHeaders, List.singleton_append]
    refine ⟨?_, ?_, ?_, ?_⟩
    · rw [List.mem_cons]
      rintro (h | h)
      · exact schemeIssue_ne_of_ne url probe noRespMsg (by decide) (by decide) (by decide) h
      · exact noResp_notMem_headerIssues hs h
    · rw [List.mem_cons, csp_mem_headerIssues]
      have hne1 := schemeIssue_ne_of_ne url probe cspMsg (by decide) (by decide) (by decide)
      simp [hne1]
    · rw [List.mem_cons, xcto_mem_headerIssues]
      have hne1 := schemeIssue_ne_of_ne url probe xctoMsg (by decide) (by decide) (by decide)
      simp [hne1]
    · rw [List.mem_cons, sts_mem_headerIssues]
      have hne1 := schemeIssue_ne_of_ne url probe stsMsg (by decide) (by decide) (by decide)
      simp [hne1]
  · intro hge
    have htr : pyTruthyResp (some ⟨status, hs⟩) = false := by
      simp [pyTruthyResp, Nat.not_lt.mpr hge]
    simp [securityIssues, htr]

/-- C2 witness: a 301 response with no headers: the placeholder is absent
and the missing-CSP finding is present. -/
theorem C2_witness :
    cspMsg ∈ securityIssues "http://e.com" (some ⟨301, []⟩) (.error "p") :=
  (((C2_amended_header_checks "http://e.com" 301 [] (.error "p")
    (by decide)).1 (by decide)).2.1).mpr rfl

end WebsiteAudit

namespace WebsiteAudit

/-- C5 counterexample: httpx.com has no scheme (no colon at all), yet the
constructor leaves it unchanged because it starts with the four letters
http, so no http:// is prefixed. -/
theorem C5_counterexample :
    specHasScheme "httpx.com" = false
    ∧ normalizeUrl "httpx.com" ≠ "http://httpx.com"
    ∧ normalizeUrl "httpx.com" = "httpx.com" :=
  ⟨rfl, by decide, rfl⟩

/-- C5, amended: the constructor prefixes http:// exactly when the URL does
not already start with http (example.com becomes http://example.com); the
URL field is never changed by a completed audit; a prefixed URL never
starts with https://, and on any such target the enable-HTTPS finding is
emitted whenever a truthy response exists. -/
theorem C5_amended_normalization :
    normalizeUrl "example.com" = "http://example.com"
    ∧ (∀ u : String, pyStartsWith u "http" = false → normalizeUrl u = "http://" ++ u)
    ∧ (∀ u : String, pyStartsWith u "http" = false →
        pyStartsWith (normalizeUrl u) "https://" = false)
    ∧ (∀ (env : Env) (st st' : AuditState), run_audit env st = .ok st' → st'.url = st.url)
    ∧ (∀ (url : String) (r : Resp) (probe : Except String String),
        pyStartsWith url "https://" = false → r.status < 400 →
        enableHttpsMsg ∈ securityIssues url (some r) probe) := by
  refine ⟨rfl, ?_, ?_, run_audit_url, ?_⟩
  · intro u hu
    simp [normalizeUrl, hu]
  · intro u hu
    simp only [normalizeUrl, hu, Bool.false_eq_true, if_false]
    obtain ⟨l⟩ := u
    rfl
  · intro url r probe hsch hlt
    have htr : pyTruthyResp (some r) = true := by
      simp [pyTruthyResp, hlt]
    simp [securityIssues, htr, schemeIssue, hsch]

/-- C5 witness: the amended statement at example.com with a 200 response. -/
theorem C5_witness :
    normalizeUrl "example.com" = "http://example.com"
    ∧ enableHttpsMsg ∈ securityIssues (normalizeUrl "example.com")
        (some ⟨200, []⟩) (.error "p") :=
  ⟨C5_amended_normalization.1,
   C5_amended_normalization.2.2.2.2 (normalizeUrl "example.com") ⟨200, []⟩
     (.error "p") (by decide) (by decide)⟩

/-- C9: every completed audit reports exactly the four category keys in
order, each key is present with some (possibly empty) findings list, and
every step of a run only appends to each category's list. -/
theorem C9_report_shape :
    (∀ (env : Env) (url : String) (rep : Issues), runAuditReport env url = .ok rep →
      rep.map Prod.fst = ["security", "performance", "seo", "accessibility"]
      ∧ ∀ cat ∈ (["security", "performance", "seo", "accessibility"] : List String),
          ∃ l, (cat, l) ∈ rep)
    ∧ (∀ (env : Env) (st st' : AuditState) (cat : String), run_audit env st = .ok st' →
        ∃ t, getIssues st'.issues cat = getIssues st.issues cat ++ t) := by
  constructor
  · intro env url rep h
    obtain ⟨st', hst, hrep⟩ :
        ∃ st', run_audit env (mkAudit url) = .ok st' ∧ st'.issues = rep := by
      unfold runAuditReport at h
      cases hr : run_audit env (mkAudit url) with
      | error e => rw [hr] at h; exact absurd h (by simp [Except.map])
      | ok stx =>
          rw [hr] at h
          have h' : Except.ok (ε := String) stx.issues = Except.ok rep := h
          exact ⟨stx, rfl, Except.ok.inj h'⟩
    have hkeys : rep.map Prod.fst = ["security", "performance", "seo", "accessibility"] := by
      rw [← hrep, run_audit_keys env _ st' hst]
      rfl
    refine ⟨hkeys, ?_⟩
    intro cat hcat
    have hmem : cat ∈ rep.map Prod.fst := by rw [hkeys]; exact hcat
    obtain ⟨p, hp, hfst⟩ := List.mem_map.mp hmem
    exact ⟨p.2, by rw [← hfst]; exact hp⟩
  · intro env st st' cat h
    exact run_audit_extends env st st' cat h

/-- C9 witness: a concrete completed audit whose report carries the four
keys. -/
theorem C9_witness :
    ∃ rep, runAuditReport env404 "http://example.com" = .ok rep
      ∧ rep.map Prod.fst = ["security", "performance", "seo", "accessibility"] := by
  refine ⟨_, rfl, ?_⟩
  exact (C9_report_shape.1 env404 "http://example.com" _ rfl).1

end WebsiteAudit
